import Mathlib

/-
Verification of the VirtualBox virtual-BMC power-control bridge
(src/virtualbmc/vboxvbmc.py, src/virtualbmc/vbmc.py).

The bridge translates IPMI chassis-control handler calls into invocations of
the VBoxManage command-line tool and classifies the results.  The embedding
below models:

* the inventory data path of `get_list_vms` / `get_power_state`
  (Python `bytes.splitlines`, the listing regex, dict build and lookup),
* `shlex.split` (POSIX mode), used by `run_command` / `run_vboxmanage`
  to lex string-built command lines into argv tokens,
* `subprocess.Popen` as an abstract spawn oracle that either yields an
  exit status with captured stdout/stderr or raises (launch failure),
* each handler (`get_power_state`, `power_on`, `power_off`, `power_cycle`,
  `power_reset`, `power_shutdown`) as a fallible body (`Except`) wrapped by
  the `try/except Exception: return 0xd5` boundary, instrumented with the
  trace of argv vectors actually passed to `Popen`.
-/

namespace VBmc

/-- List of characters of a string literal; text throughout the model is
`List Char`. -/
def chars (s : String) : List Char := s.data

/-- Named characters, to keep quote and brace literals out of the source
text of patterns. -/
def squoteChar : Char := Char.ofNat 39

/-- Double-quote character. -/
def dquoteChar : Char := Char.ofNat 34

/-- Backslash character. -/
def backslashChar : Char := Char.ofNat 92

/-- Opening curly brace character. -/
def lbraceChar : Char := Char.ofNat 123

/-- Closing curly brace character. -/
def rbraceChar : Char := Char.ofNat 125

/-- Power state OFF (vboxvbmc.py line 17: `POWEROFF = 0`). -/
def POWEROFF : Nat := 0

/-- Power state ON (vboxvbmc.py line 18: `POWERON = 1`). -/
def POWERON : Nat := 1

/-- The inventory snapshot: a Python dict from VM name to run state,
modelled by its lookup function. -/
abbrev VMDict := List Char → Option Nat

/-- The empty dict `result = {}`. -/
def emptyDict : VMDict := fun _ => none

/-- Dict assignment `result[name] = v` (later assignments win on lookup). -/
def dictSet (d : VMDict) (k : List Char) (v : Nat) : VMDict :=
  fun q => if q = k then some v else d q

/-- Python `bytes.splitlines`: split on LF, CR and CRLF; a trailing break
adds no empty final line. -/
def splitLines : List Char → List (List Char)
  | [] => []
  | '\r' :: '\n' :: rest => [] :: splitLines rest
  | c :: rest =>
    if c = '\n' || c = '\r' then [] :: splitLines rest
    else
      match splitLines rest with
      | [] => [[c]]
      | l :: ls => (c :: l) :: ls

/-- Rightmost split of a character list around the three-character separator
double-quote, space, open-brace; returns the parts before and after it.
Preferring the rightmost occurrence mirrors the greedy `(.*)` of the
listing regex. -/
def splitLastSep : List Char → Option (List Char × List Char)
  | [] => none
  | c :: cs =>
    match splitLastSep cs with
    | some p => some (c :: p.1, p.2)
    | none =>
      match cs with
      | b :: d :: rest =>
        if c = dquoteChar && b = ' ' && d = lbraceChar then some ([], rest)
        else none
      | _ => none

/-- The listing regex of `get_list_vms` (vboxvbmc.py line 63):
`re.search` of the anchored pattern double-quote `(.*)` double-quote space
open-brace `(.*)` close-brace against one line, returning group 1 (the VM
name) on a match.  With both groups greedy, a matching line decomposes as
quote, name, the quote-space-brace separator at its rightmost admissible
position, the uuid text, and a final close-brace. -/
def matchVMLine (l : List Char) : Option (List Char) :=
  match l with
  | [] => none
  | c :: rest =>
    if c = dquoteChar && rest.getLast? = some rbraceChar then
      match splitLastSep rest.dropLast with
      | some p => some p.1
      | none => none
    else none

/-- VM names contributed by a listing output: group 1 of every line of the
output that matches the listing pattern. -/
def vmNames (out : List Char) : List (List Char) :=
  (splitLines out).filterMap matchVMLine

/-- One `for line in out.splitlines(): ... result[name] = state` loop of
`get_list_vms`, over already-split lines. -/
def scanListing : List (List Char) → Nat → VMDict → VMDict
  | [], _, d => d
  | l :: ls, st, d =>
    match matchVMLine l with
    | some name => scanListing ls st (dictSet d name st)
    | none => scanListing ls st d

/-- The two loops of `get_list_vms` over already-split lines: full listing
to OFF first, then running listing to ON. -/
def listVMsFromLines (la lr : List (List Char)) : VMDict :=
  scanListing lr POWERON (scanListing la POWEROFF emptyDict)

/-- Data path of `VBoxVirtualBMC.get_list_vms` (vboxvbmc.py lines 61-80)
given the captured stdout of the `list vms` and `list runningvms`
invocations: build `result = {}`, set every name matched in the full
listing to POWEROFF, then set every name matched in the running listing to
POWERON. -/
def get_list_vms (outAll outRun : List Char) : VMDict :=
  listVMsFromLines (splitLines outAll) (splitLines outRun)

/-- Data path of `VBoxVirtualBMC.get_power_state` (vboxvbmc.py lines 82-92)
given the two listing outputs: `vms[self.domain_name]`; a missing key
raises KeyError, which the surrounding `except Exception` converts to
0xd5 (command not supported in present state). -/
def get_power_state (outAll outRun domain : List Char) : Nat :=
  match get_list_vms outAll outRun domain with
  | some v => v
  | none => 0xd5

/-- Python exceptions relevant to the bridge, as raised values. -/
inductive PyErr where
  | fileNotFound
  | permissionDenied
  | keyError (k : List Char)
  | valueError
  deriving DecidableEq, Repr

instance {ε α : Type} [DecidableEq ε] [DecidableEq α] : DecidableEq (Except ε α) :=
  fun x y =>
    match x, y with
    | .ok a, .ok b =>
      if h : a = b then .isTrue (by rw [h]) else .isFalse (by simp [h])
    | .error a, .error b =>
      if h : a = b then .isTrue (by rw [h]) else .isFalse (by simp [h])
    | .ok _, .error _ => .isFalse (by simp)
    | .error _, .ok _ => .isFalse (by simp)

/-- The whitespace characters of `shlex` (space, tab, CR, LF). -/
def isShlexWS (c : Char) : Bool :=
  c = ' ' || c = '\t' || c = '\r' || c = '\n'

/-- Lexer mode of the `shlex.split` model: outside quotes, inside single
quotes, inside double quotes, after a backslash outside quotes, after a
backslash inside double quotes. -/
inductive LexMode where
  | norm
  | insgl
  | indbl
  | escNorm
  | escDbl
  deriving DecidableEq, Repr

/-- Modelled from the Python standard library: the character loop of
`shlex.split` in POSIX mode with whitespace splitting (as called by
`run_command` / `run_vboxmanage`; `shlex` is not under src/).  Whitespace
separates tokens; single quotes take text literally up to the closing
quote; double quotes take text literally except that a backslash escapes a
backslash or a double quote (and is otherwise kept); a backslash outside
quotes escapes any character; an unclosed quote or a trailing backslash
raises ValueError.  The accumulator is `some` exactly while a token is
open, so adjacent quoted pieces concatenate and empty quotes yield an
empty token. -/
def shlexRun : List Char → LexMode → Option (List Char) → Except PyErr (List (List Char))
  | [], .norm, none => .ok []
  | [], .norm, some acc => .ok [acc]
  | [], _, _ => .error .valueError
  | c :: rest, .norm, acc =>
    if isShlexWS c then
      match acc with
      | none => shlexRun rest .norm none
      | some a => (shlexRun rest .norm none).map (fun ts => a :: ts)
    else if c = squoteChar then shlexRun rest .insgl (some (acc.getD []))
    else if c = dquoteChar then shlexRun rest .indbl (some (acc.getD []))
    else if c = backslashChar then shlexRun rest .escNorm (some (acc.getD []))
    else shlexRun rest .norm (some (acc.getD [] ++ [c]))
  | c :: rest, .insgl, acc =>
    if c = squoteChar then shlexRun rest .norm acc
    else shlexRun rest .insgl (some (acc.getD [] ++ [c]))
  | c :: rest, .indbl, acc =>
    if c = dquoteChar then shlexRun rest .norm acc
    else if c = backslashChar then shlexRun rest .escDbl acc
    else shlexRun rest .indbl (some (acc.getD [] ++ [c]))
  | c :: rest, .escNorm, acc => shlexRun rest .norm (some (acc.getD [] ++ [c]))
  | c :: rest, .escDbl, acc =>
    if c = backslashChar || c = dquoteChar then
      shlexRun rest .indbl (some (acc.getD [] ++ [c]))
    else shlexRun rest .indbl (some (acc.getD [] ++ [backslashChar, c]))

/-- Entry point of the `shlex.split` model. -/
def shlexSplit (s : List Char) : Except PyErr (List (List Char)) :=
  shlexRun s .norm none

/-- Result of a completed child process: exit status and the captured
stdout and stderr buffers. -/
structure ProcResult where
  status : Int
  out : List Char
  err : List Char
  deriving DecidableEq, Repr

/-- Abstract behavior of `subprocess.Popen(argv, stdout=PIPE, stderr=PIPE)`
followed by `wait()` and `communicate()`: given the argv vector, either
the child runs to completion with an exit status and captured output, or
the spawn itself raises (binary not found, permission denied). -/
abbrev Spawn := List (List Char) → Except PyErr ProcResult

/-- Argv traces: the list of argv vectors passed to `Popen`, in order. -/
abbrev Trace := List (List (List Char))

/-- `VBoxVirtualBMC.run_vboxmanage` (vboxvbmc.py lines 54-59):
`Popen([self.vboxmanage_path] + shlex.split(options))`, then
`wait`/`communicate`; returns `(status, out, err)`.  A ValueError from
`shlex.split` or a spawn failure propagates to the caller; a nonzero exit
status does not raise. -/
def run_vboxmanage (spawn : Spawn) (path opts : List Char) :
    Except PyErr (Int × List Char × List Char) :=
  match shlexSplit opts with
  | .error e => .error e
  | .ok toks =>
    match spawn (path :: toks) with
    | .error e => .error e
    | .ok p => .ok (p.status, p.out, p.err)

/-- `VirtualBMC.run_command` (vbmc.py lines 57-61):
`Popen(shlex.split(command))` on the whole command string, then
`wait`/`communicate`; returns `(status, out, err)`. -/
def run_command (spawn : Spawn) (command : List Char) :
    Except PyErr (Int × List Char × List Char) :=
  match shlexSplit command with
  | .error e => .error e
  | .ok toks =>
    match spawn toks with
    | .error e => .error e
    | .ok p => .ok (p.status, p.out, p.err)

/-- Argv vectors passed to `Popen` by one `run_vboxmanage` call: one vector
when the option string lexes, none when `shlex.split` raises first. -/
def vboxArgvs (path opts : List Char) : Trace :=
  match shlexSplit opts with
  | .ok toks => [path :: toks]
  | .error _ => []

/-- `run_vboxmanage` instrumented with its argv trace. -/
def run_vboxmanage_t (spawn : Spawn) (path opts : List Char) :
    Except PyErr (Int × List Char × List Char) × Trace :=
  (run_vboxmanage spawn path opts, vboxArgvs path opts)

/-- Option string of the power-off invocation
(`"controlvm " + self.domain_name + " poweroff"`, vboxvbmc.py line 97). -/
def offOpts (domain : List Char) : List Char :=
  chars "controlvm " ++ domain ++ chars " poweroff"

/-- Option string of the power-on invocation
(`"startvm " + self.domain_name + " --type headless"`, line 108). -/
def startOpts (domain : List Char) : List Char :=
  chars "startvm " ++ domain ++ chars " --type headless"

/-- Option string of the reset invocation (line 132). -/
def resetOpts (domain : List Char) : List Char :=
  chars "controlvm " ++ domain ++ chars " reset"

/-- Option string of the soft-shutdown invocation (line 143). -/
def acpiOpts (domain : List Char) : List Char :=
  chars "controlvm " ++ domain ++ chars " acpipowerbutton"

/-- The `try: ... except Exception: return 0xd5`-style boundary of every
handler: a raised body is converted to the default completion value, a
returned body passes through; the argv trace is kept either way. -/
def pyCatch {α : Type} (dflt : α) (b : Except PyErr α × Trace) :
    Except PyErr α × Trace :=
  match b with
  | (.ok v, tr) => (.ok v, tr)
  | (.error _, tr) => (.ok dflt, tr)

/-- Body of `VBoxVirtualBMC.get_list_vms` (lines 61-80) as run by the
handlers: the `list vms` invocation, then the `list runningvms`
invocation, then the pure dict build on the two captured outputs; an
exception from either invocation propagates. -/
def get_list_vms_e (spawn : Spawn) (path : List Char) :
    Except PyErr VMDict × Trace :=
  match run_vboxmanage_t spawn path (chars "list vms") with
  | (.error e, t1) => (.error e, t1)
  | (.ok r1, t1) =>
    match run_vboxmanage_t spawn path (chars "list runningvms") with
    | (.error e, t2) => (.error e, t1 ++ t2)
    | (.ok r2, t2) => (.ok (get_list_vms r1.2.1 r2.2.1), t1 ++ t2)

/-- Body of `VBoxVirtualBMC.get_power_state` (lines 82-92) inside its
`try`: build the inventory, then `vms[self.domain_name]`; a missing key
raises KeyError. -/
def get_power_state_body (spawn : Spawn) (path domain : List Char) :
    Except PyErr Nat × Trace :=
  match get_list_vms_e spawn path with
  | (.error e, tr) => (.error e, tr)
  | (.ok d, tr) =>
    match d domain with
    | some v => (.ok v, tr)
    | none => (.error (.keyError domain), tr)

/-- The `get_power_state` handler: its body under the
`except Exception: return 0xd5` boundary. -/
def get_power_state_h (spawn : Spawn) (path domain : List Char) :
    Except PyErr Nat × Trace :=
  pyCatch 0xd5 (get_power_state_body spawn path domain)

/-- Body of `VBoxVirtualBMC.power_off` (lines 94-103) inside its `try`:
one controlvm-poweroff invocation; the exit status is never inspected and
the function body ends without a return (Python None). -/
def power_off_body (spawn : Spawn) (path domain : List Char) :
    Except PyErr (Option Nat) × Trace :=
  match run_vboxmanage_t spawn path (offOpts domain) with
  | (.ok _, tr) => (.ok none, tr)
  | (.error e, tr) => (.error e, tr)

/-- The `power_off` handler under its `except Exception: return 0xd5`
boundary. -/
def power_off_h (spawn : Spawn) (path domain : List Char) :
    Except PyErr (Option Nat) × Trace :=
  pyCatch (some 0xd5) (power_off_body spawn path domain)

/-- Body of `VBoxVirtualBMC.power_on` (lines 105-114) inside its `try`:
one startvm invocation; the exit status is never inspected and the
function body ends without a return (Python None). -/
def power_on_body (spawn : Spawn) (path domain : List Char) :
    Except PyErr (Option Nat) × Trace :=
  match run_vboxmanage_t spawn path (startOpts domain) with
  | (.ok _, tr) => (.ok none, tr)
  | (.error e, tr) => (.error e, tr)

/-- The `power_on` handler under its `except Exception: return 0xd5`
boundary. -/
def power_on_h (spawn : Spawn) (path domain : List Char) :
    Except PyErr (Option Nat) × Trace :=
  pyCatch (some 0xd5) (power_on_body spawn path domain)

/-- Body of `VBoxVirtualBMC.power_cycle` (lines 116-127) inside its `try`:
the controlvm-poweroff invocation, `time.sleep(1)` (a pure no-op in the
model), then the startvm invocation; an exception from the first
invocation skips the second; exit statuses are never inspected. -/
def power_cycle_body (spawn : Spawn) (path domain : List Char) :
    Except PyErr (Option Nat) × Trace :=
  match run_vboxmanage_t spawn path (offOpts domain) with
  | (.error e, t1) => (.error e, t1)
  | (.ok _, t1) =>
    match run_vboxmanage_t spawn path (startOpts domain) with
    | (.error e, t2) => (.error e, t1 ++ t2)
    | (.ok _, t2) => (.ok none, t1 ++ t2)

/-- The `power_cycle` handler under its `except Exception: return 0xd5`
boundary. -/
def power_cycle_h (spawn : Spawn) (path domain : List Char) :
    Except PyErr (Option Nat) × Trace :=
  pyCatch (some 0xd5) (power_cycle_body spawn path domain)

/-- Body of `VBoxVirtualBMC.power_reset` (lines 129-138) inside its
`try`. -/
def power_reset_body (spawn : Spawn) (path domain : List Char) :
    Except PyErr (Option Nat) × Trace :=
  match run_vboxmanage_t spawn path (resetOpts domain) with
  | (.ok _, tr) => (.ok none, tr)
  | (.error e, tr) => (.error e, tr)

/-- The `power_reset` handler under its `except Exception: return 0xd5`
boundary. -/
def power_reset_h (spawn : Spawn) (path domain : List Char) :
    Except PyErr (Option Nat) × Trace :=
  pyCatch (some 0xd5) (power_reset_body spawn path domain)

/-- Body of `VBoxVirtualBMC.power_shutdown` (lines 140-149) inside its
`try`. -/
def power_shutdown_body (spawn : Spawn) (path domain : List Char) :
    Except PyErr (Option Nat) × Trace :=
  match run_vboxmanage_t spawn path (acpiOpts domain) with
  | (.ok _, tr) => (.ok none, tr)
  | (.error e, tr) => (.error e, tr)

/-- The `power_shutdown` handler under its `except Exception: return 0xd5`
boundary. -/
def power_shutdown_h (spawn : Spawn) (path domain : List Char) :
    Except PyErr (Option Nat) × Trace :=
  pyCatch (some 0xd5) (power_shutdown_body spawn path domain)

/-- Modelled from the spec: the external IPMI engine (pyghmi, not under
src/) maps a handler that returns no value (Python None) to completion
code 0x00 (success) and a returned integer to itself. -/
def completionOf : Option Nat → Nat
  | none => 0x00
  | some c => c

/-- A character with no lexical role in `shlex.split`: not whitespace, not
a quote, not a backslash. -/
def plainChar (c : Char) : Bool :=
  !(isShlexWS c) && !(c = squoteChar) && !(c = dquoteChar) && !(c = backslashChar)

/-- Spawn oracle whose child always starts and exits with status 1. -/
def spawnExit1 : Spawn := fun _ => .ok ⟨1, [], []⟩

/-- Spawn oracle whose child always starts and exits with status 0. -/
def spawnOkZero : Spawn := fun _ => .ok ⟨0, [], []⟩

/-- Spawn oracle that always fails to start the child (binary not
found). -/
def spawnFailFNF : Spawn := fun _ => .error .fileNotFound

/-- Whether a line matches the listing pattern. -/
def isVMLine (l : List Char) : Bool := (matchVMLine l).isSome

/-- Spawn oracle of a host with two VMs, node01 and node02, of which
node01 is running: the running listing is returned for a `runningvms`
invocation and the full listing for anything else. -/
def spawnInv : Spawn := fun argv =>
  if argv.getLast? = some (chars "runningvms") then
    .ok ⟨0, chars "\x22node01\x22 \x7babc\x7d", []⟩
  else
    .ok ⟨0, chars "\x22node01\x22 \x7babc\x7d\n\x22node02\x22 \x7bdef\x7d", []⟩


/-
Helper lemmas: dict build, filtering, and shlex token structure.
-/

theorem scanListing_not_mem (ls : List (List Char)) (st : Nat) (d : VMDict)
    (name : List Char) (h : name ∉ ls.filterMap matchVMLine) :
    scanListing ls st d name = d name := by
  induction ls generalizing d with
  | nil => rfl
  | cons l ls ih =>
    rw [List.filterMap_cons] at h
    cases hm : matchVMLine l with
    | none =>
      rw [hm] at h
      simpa [scanListing, hm] using ih d h
    | some n =>
      rw [hm] at h
      simp only [List.mem_cons] at h
      push_neg at h
      simp only [scanListing, hm]
      rw [ih _ h.2]
      simp [dictSet, h.1]

theorem scanListing_mem (ls : List (List Char)) (st : Nat) (d : VMDict)
    (name : List Char) (h : name ∈ ls.filterMap matchVMLine) :
    scanListing ls st d name = some st := by
  induction ls generalizing d with
  | nil => simp at h
  | cons l ls ih =>
    rw [List.filterMap_cons] at h
    cases hm : matchVMLine l with
    | none =>
      rw [hm] at h
      simpa [scanListing, hm] using ih d h
    | some n =>
      rw [hm] at h
      by_cases htail : name ∈ ls.filterMap matchVMLine
      · simp only [scanListing, hm]
        exact ih _ htail
      · have hn : name = n := by
          rcases List.mem_cons.1 h with h1 | h1
          · exact h1
          · exact absurd h1 htail
        simp only [scanListing, hm]
        rw [scanListing_not_mem ls st _ name htail]
        simp [dictSet, hn]

theorem get_list_vms_on (outAll outRun name : List Char)
    (h : name ∈ vmNames outRun) :
    get_list_vms outAll outRun name = some POWERON := by
  unfold get_list_vms listVMsFromLines
  exact scanListing_mem _ _ _ _ h

theorem get_list_vms_off (outAll outRun name : List Char)
    (h1 : name ∈ vmNames outAll) (h2 : name ∉ vmNames outRun) :
    get_list_vms outAll outRun name = some POWEROFF := by
  unfold get_list_vms listVMsFromLines
  rw [scanListing_not_mem _ _ _ _ h2]
  exact scanListing_mem _ _ _ _ h1

theorem get_list_vms_absent (outAll outRun name : List Char)
    (h1 : name ∉ vmNames outAll) (h2 : name ∉ vmNames outRun) :
    get_list_vms outAll outRun name = none := by
  unfold get_list_vms listVMsFromLines
  rw [scanListing_not_mem _ _ _ _ h2, scanListing_not_mem _ _ _ _ h1]
  rfl

theorem scanListing_filter (ls : List (List Char)) (st : Nat) (d : VMDict) :
    scanListing (ls.filter isVMLine) st d = scanListing ls st d := by
  induction ls generalizing d with
  | nil => rfl
  | cons l ls ih =>
    cases hm : matchVMLine l with
    | none =>
      have hv : isVMLine l = false := by simp [isVMLine, hm]
      simp [List.filter_cons, hv, scanListing, hm, ih]
    | some n =>
      have hv : isVMLine l = true := by simp [isVMLine, hm]
      simp [List.filter_cons, hv, scanListing, hm, ih]

theorem plainChar_spec {c : Char} (h : plainChar c = true) :
    isShlexWS c = false ∧ c ≠ squoteChar ∧ c ≠ dquoteChar ∧ c ≠ backslashChar := by
  simp only [plainChar, Bool.and_eq_true, Bool.not_eq_true'] at h
  obtain ⟨⟨⟨h1, h2⟩, h3⟩, h4⟩ := h
  exact ⟨h1, by simpa using h2, by simpa using h3, by simpa using h4⟩

theorem shlexRun_plain_cons (c : Char) (rest acc : List Char)
    (h : plainChar c = true) :
    shlexRun (c :: rest) .norm (some acc) =
      shlexRun rest .norm (some (acc ++ [c])) := by
  obtain ⟨h1, h2, h3, h4⟩ := plainChar_spec h
  simp [shlexRun, h1, h2, h3, h4]

theorem shlexRun_plain_cons_none (c : Char) (rest : List Char)
    (h : plainChar c = true) :
    shlexRun (c :: rest) .norm none = shlexRun rest .norm (some [c]) := by
  obtain ⟨h1, h2, h3, h4⟩ := plainChar_spec h
  simp [shlexRun, h1, h2, h3, h4]

theorem shlexRun_plain_append (tok rest acc : List Char)
    (h : ∀ c ∈ tok, plainChar c = true) :
    shlexRun (tok ++ rest) .norm (some acc) =
      shlexRun rest .norm (some (acc ++ tok)) := by
  induction tok generalizing acc with
  | nil => simp
  | cons c t ih =>
    rw [List.cons_append, shlexRun_plain_cons c _ _ (h c (by simp)),
      ih _ (fun x hx => h x (by simp [hx]))]
    simp

theorem shlexRun_plain_start (tok rest : List Char)
    (h : ∀ c ∈ tok, plainChar c = true) (hne : tok ≠ []) :
    shlexRun (tok ++ rest) .norm none = shlexRun rest .norm (some tok) := by
  cases tok with
  | nil => exact absurd rfl hne
  | cons c t =>
    rw [List.cons_append, shlexRun_plain_cons_none c _ (h c (by simp)),
      shlexRun_plain_append t rest [c] (fun x hx => h x (by simp [hx]))]
    rfl

theorem shlexRun_ws_some (rest acc : List Char) :
    shlexRun (' ' :: rest) .norm (some acc) =
      (shlexRun rest .norm none).map (fun ts => acc :: ts) := by
  simp [shlexRun, isShlexWS]

theorem shlexSplit_two_tokens (pre dom rest : List Char) (ts : List (List Char))
    (hpre : ∀ c ∈ pre, plainChar c = true) (hpre0 : pre ≠ [])
    (hdom : ∀ c ∈ dom, plainChar c = true) (hdom0 : dom ≠ [])
    (hrest : shlexRun rest .norm none = .ok ts) :
    shlexSplit (pre ++ ' ' :: (dom ++ ' ' :: rest)) = .ok (pre :: dom :: ts) := by
  unfold shlexSplit
  rw [shlexRun_plain_start pre _ hpre hpre0, shlexRun_ws_some,
    shlexRun_plain_start dom _ hdom hdom0, shlexRun_ws_some, hrest]
  rfl

theorem offOpts_shape (domain : List Char) :
    offOpts domain =
      chars "controlvm" ++ ' ' :: (domain ++ ' ' :: chars "poweroff") := by
  have h1 : chars "controlvm " = chars "controlvm" ++ [' '] := rfl
  have h2 : chars " poweroff" = ' ' :: chars "poweroff" := rfl
  simp [offOpts, h1, h2]

theorem startOpts_shape (domain : List Char) :
    startOpts domain =
      chars "startvm" ++ ' ' :: (domain ++ ' ' :: chars "--type headless") := by
  have h1 : chars "startvm " = chars "startvm" ++ [' '] := rfl
  have h2 : chars " --type headless" = ' ' :: chars "--type headless" := rfl
  simp [startOpts, h1, h2]

theorem shlexSplit_offOpts (domain : List Char)
    (hdom : ∀ c ∈ domain, plainChar c = true) (hdom0 : domain ≠ []) :
    shlexSplit (offOpts domain) =
      .ok [chars "controlvm", domain, chars "poweroff"] := by
  rw [offOpts_shape]
  exact shlexSplit_two_tokens _ _ _ _ (by decide) (by decide) hdom hdom0 (by decide)

theorem shlexSplit_startOpts (domain : List Char)
    (hdom : ∀ c ∈ domain, plainChar c = true) (hdom0 : domain ≠ []) :
    shlexSplit (startOpts domain) =
      .ok [chars "startvm", domain, chars "--type", chars "headless"] := by
  rw [startOpts_shape]
  exact shlexSplit_two_tokens _ _ _ _ (by decide) (by decide) hdom hdom0 (by decide)

theorem shlexSplit_offOpts_map (domain : List Char) :
    shlexSplit (offOpts domain) =
      (shlexRun (domain ++ ' ' :: chars "poweroff") .norm none).map
        (fun ts => chars "controlvm" :: ts) := by
  rw [offOpts_shape]
  unfold shlexSplit
  rw [shlexRun_plain_start (chars "controlvm") _ (by decide) (by decide),
    shlexRun_ws_some]

theorem vboxArgvs_offOpts (path domain : List Char) (a : List (List Char))
    (ha : a ∈ vboxArgvs path (offOpts domain)) :
    ∃ ts, a = path :: chars "controlvm" :: ts := by
  unfold vboxArgvs at ha
  rw [shlexSplit_offOpts_map] at ha
  cases hr : shlexRun (domain ++ ' ' :: chars "poweroff") .norm none with
  | error e =>
    rw [hr] at ha
    simp [Except.map] at ha
  | ok ts =>
    rw [hr] at ha
    simp [Except.map] at ha
    exact ⟨ts, ha⟩

theorem pyCatch_isOk {α : Type} (dflt : α) (b : Except PyErr α × Trace) :
    ∃ v, (pyCatch dflt b).1 = Except.ok v := by
  obtain ⟨x, tr⟩ := b
  cases x with
  | ok v => exact ⟨v, rfl⟩
  | error e => exact ⟨dflt, rfl⟩

theorem power_off_trace (spawn : Spawn) (path domain : List Char) :
    (power_off_h spawn path domain).2 = vboxArgvs path (offOpts domain) := by
  unfold power_off_h power_off_body run_vboxmanage_t
  cases run_vboxmanage spawn path (offOpts domain) <;> rfl

theorem power_on_trace (spawn : Spawn) (path domain : List Char) :
    (power_on_h spawn path domain).2 = vboxArgvs path (startOpts domain) := by
  unfold power_on_h power_on_body run_vboxmanage_t
  cases run_vboxmanage spawn path (startOpts domain) <;> rfl

theorem vboxArgvs_ne_nil_of_ok (spawn : Spawn) (path opts : List Char)
    (r : Int × List Char × List Char)
    (h : run_vboxmanage spawn path opts = .ok r) :
    vboxArgvs path opts ≠ [] := by
  unfold run_vboxmanage at h
  unfold vboxArgvs
  cases hs : shlexSplit opts with
  | error e =>
    rw [hs] at h
    exact absurd h (by simp)
  | ok toks => simp

/-
Claim theorems.
-/

/-- C1: for every pair of listing outputs, a VM name whose line matches
the listing pattern only in the full listing and not in the running
listing is mapped to OFF (0) in the inventory snapshot, and resolving
that name yields OFF. -/
theorem claim_C1 (outAll outRun name : List Char)
    (h1 : name ∈ vmNames outAll) (h2 : name ∉ vmNames outRun) :
    get_list_vms outAll outRun name = some POWEROFF ∧
    get_power_state outAll outRun name = POWEROFF := by
  have h := get_list_vms_off outAll outRun name h1 h2
  exact ⟨h, by simp [get_power_state, h]⟩

theorem claim_C1_witness :
    get_list_vms (chars "\x22vmA\x22 \x7buuid\x7d") (chars "") (chars "vmA") =
      some POWEROFF ∧
    get_power_state (chars "\x22vmA\x22 \x7buuid\x7d") (chars "") (chars "vmA") =
      POWEROFF :=
  claim_C1 (chars "\x22vmA\x22 \x7buuid\x7d") (chars "") (chars "vmA")
    (by decide) (by decide)

/-- C2: for every pair of listing outputs in which a VM name's line
matches the pattern in both the full and the running listing, the
snapshot maps it to ON (1): the running listing is merged after the full
listing, so ON wins, and resolving the name yields ON. -/
theorem claim_C2 (outAll outRun name : List Char)
    (h1 : name ∈ vmNames outAll) (h2 : name ∈ vmNames outRun) :
    get_list_vms outAll outRun name = some POWERON ∧
    get_power_state outAll outRun name = POWERON := by
  have h := get_list_vms_on outAll outRun name h2
  exact ⟨h, by simp [get_power_state, h]⟩

theorem claim_C2_witness :
    get_list_vms (chars "\x22vmA\x22 \x7buuid\x7d") (chars "\x22vmA\x22 \x7buuid\x7d")
      (chars "vmA") = some POWERON ∧
    get_power_state (chars "\x22vmA\x22 \x7buuid\x7d") (chars "\x22vmA\x22 \x7buuid\x7d")
      (chars "vmA") = POWERON :=
  claim_C2 (chars "\x22vmA\x22 \x7buuid\x7d") (chars "\x22vmA\x22 \x7buuid\x7d")
    (chars "vmA") (by decide) (by decide)

/-- C3: when the configured VM name appears in neither listing, the
inventory lookup finds no entry (distinct from present-and-OFF), the
handler body raises KeyError, and the GetPowerState handler returns the
"not supported in present state" code 0xd5, never the numeric state 0. -/
theorem claim_C3 (spawn : Spawn) (path domain : List Char) (pAll pRun : ProcResult)
    (hAll : spawn [path, chars "list", chars "vms"] = .ok pAll)
    (hRun : spawn [path, chars "list", chars "runningvms"] = .ok pRun)
    (h1 : domain ∉ vmNames pAll.out) (h2 : domain ∉ vmNames pRun.out) :
    get_list_vms pAll.out pRun.out domain = none ∧
    get_power_state_body spawn path domain =
      (.error (.keyError domain),
        [[path, chars "list", chars "vms"],
          [path, chars "list", chars "runningvms"]]) ∧
    get_power_state_h spawn path domain =
      (.ok 0xd5,
        [[path, chars "list", chars "vms"],
          [path, chars "list", chars "runningvms"]]) ∧
    (0xd5 : Nat) ≠ POWEROFF := by
  have habs := get_list_vms_absent pAll.out pRun.out domain h1 h2
  have hs1 : shlexSplit (chars "list vms") = .ok [chars "list", chars "vms"] := by
    decide
  have hs2 : shlexSplit (chars "list runningvms") =
      .ok [chars "list", chars "runningvms"] := by decide
  have hr1 : run_vboxmanage_t spawn path (chars "list vms") =
      (.ok (pAll.status, pAll.out, pAll.err), [[path, chars "list", chars "vms"]]) := by
    simp [run_vboxmanage_t, run_vboxmanage, vboxArgvs, hs1, hAll]
  have hr2 : run_vboxmanage_t spawn path (chars "list runningvms") =
      (.ok (pRun.status, pRun.out, pRun.err),
        [[path, chars "list", chars "runningvms"]]) := by
    simp [run_vboxmanage_t, run_vboxmanage, vboxArgvs, hs2, hRun]
  have hg : get_list_vms_e spawn path =
      (.ok (get_list_vms pAll.out pRun.out),
        [[path, chars "list", chars "vms"],
          [path, chars "list", chars "runningvms"]]) := by
    simp [get_list_vms_e, hr1, hr2]
  have hb : get_power_state_body spawn path domain =
      (.error (.keyError domain),
        [[path, chars "list", chars "vms"],
          [path, chars "list", chars "runningvms"]]) := by
    simp [get_power_state_body, hg, habs]
  refine ⟨habs, hb, ?_, by decide⟩
  simp [get_power_state_h, hb, pyCatch]

theorem claim_C3_witness :
    get_list_vms (chars "\x22node01\x22 \x7babc\x7d\n\x22node02\x22 \x7bdef\x7d")
      (chars "\x22node01\x22 \x7babc\x7d") (chars "node03") = none ∧
    get_power_state_body spawnInv (chars "VBoxManage") (chars "node03") =
      (.error (.keyError (chars "node03")),
        [[chars "VBoxManage", chars "list", chars "vms"],
          [chars "VBoxManage", chars "list", chars "runningvms"]]) ∧
    get_power_state_h spawnInv (chars "VBoxManage") (chars "node03") =
      (.ok 0xd5,
        [[chars "VBoxManage", chars "list", chars "vms"],
          [chars "VBoxManage", chars "list", chars "runningvms"]]) ∧
    (0xd5 : Nat) ≠ POWEROFF :=
  claim_C3 spawnInv (chars "VBoxManage") (chars "node03")
    ⟨0, chars "\x22node01\x22 \x7babc\x7d\n\x22node02\x22 \x7bdef\x7d", []⟩
    ⟨0, chars "\x22node01\x22 \x7babc\x7d", []⟩
    (by decide) (by decide) (by decide) (by decide)

/-- C4 as stated is false: under a spawn oracle whose every command
starts and exits with status 1, the `controlvm ... poweroff` sub-step of
PowerCycle exits nonzero -- a failure per the spec's classification --
yet the code ignores the status: the startvm argv vector is still
spawned (second element of the trace) and the handler falls off the end
of its body, returning Python None, which the IPMI engine maps to
success 0x00. -/
theorem claim_C4_counterexample :
    spawnExit1 [chars "VBoxManage", chars "controlvm", chars "node01",
      chars "poweroff"] = .ok ⟨1, [], []⟩ ∧
    (1 : Int) ≠ 0 ∧
    power_cycle_h spawnExit1 (chars "VBoxManage") (chars "node01") =
      (.ok none,
        [[chars "VBoxManage", chars "controlvm", chars "node01",
          chars "poweroff"],
          [chars "VBoxManage", chars "startvm", chars "node01",
            chars "--type", chars "headless"]]) ∧
    completionOf none = 0x00 := by
  exact ⟨by decide, by decide, by decide, rfl⟩

/-- C4 amended: PowerCycle aborts before attempting PowerOn, and reports
the non-success code 0xd5, only when the PowerOff invocation raises
(launch or lexing failure): then the trace of spawned argv vectors is
exactly that of the PowerOff sub-step, every vector in it a controlvm
command.  When the PowerOff command starts and merely exits with a
nonzero status, that failure is ignored: the PowerOn sub-step is still
attempted (the nonempty startvm argv trace follows the poweroff trace)
and, if startvm also starts, the handler returns None, which the IPMI
engine maps to success 0x00. -/
theorem claim_C4_amended (spawn : Spawn) (path domain : List Char) :
    (∀ e, run_vboxmanage spawn path (offOpts domain) = .error e →
      power_cycle_h spawn path domain =
        (.ok (some 0xd5), vboxArgvs path (offOpts domain)) ∧
      completionOf (some 0xd5) ≠ 0x00 ∧
      (∀ a ∈ vboxArgvs path (offOpts domain),
        ∃ ts, a = path :: chars "controlvm" :: ts)) ∧
    (∀ r r2, run_vboxmanage spawn path (offOpts domain) = .ok r →
      r.1 ≠ 0 →
      run_vboxmanage spawn path (startOpts domain) = .ok r2 →
      power_cycle_h spawn path domain =
        (.ok none,
          vboxArgvs path (offOpts domain) ++ vboxArgvs path (startOpts domain)) ∧
      vboxArgvs path (startOpts domain) ≠ [] ∧
      completionOf none = 0x00) := by
  constructor
  · intro e h
    refine ⟨?_, by decide, fun a ha => vboxArgvs_offOpts path domain a ha⟩
    simp [power_cycle_h, power_cycle_body, run_vboxmanage_t, h, pyCatch]
  · intro r r2 hoff _ hstart
    refine ⟨?_, vboxArgvs_ne_nil_of_ok spawn path (startOpts domain) r2 hstart, rfl⟩
    simp [power_cycle_h, power_cycle_body, run_vboxmanage_t, hoff, hstart, pyCatch]

theorem claim_C4_amended_witness :
    (power_cycle_h spawnFailFNF (chars "VBoxManage") (chars "node01") =
      (.ok (some 0xd5), vboxArgvs (chars "VBoxManage") (offOpts (chars "node01"))) ∧
      completionOf (some 0xd5) ≠ 0x00 ∧
      (∀ a ∈ vboxArgvs (chars "VBoxManage") (offOpts (chars "node01")),
        ∃ ts, a = chars "VBoxManage" :: chars "controlvm" :: ts)) ∧
    (power_cycle_h spawnExit1 (chars "VBoxManage") (chars "node01") =
      (.ok none,
        vboxArgvs (chars "VBoxManage") (offOpts (chars "node01")) ++
          vboxArgvs (chars "VBoxManage") (startOpts (chars "node01"))) ∧
      vboxArgvs (chars "VBoxManage") (startOpts (chars "node01")) ≠ [] ∧
      completionOf none = 0x00) := by
  constructor
  · exact (claim_C4_amended spawnFailFNF (chars "VBoxManage") (chars "node01")).1
      .fileNotFound (by decide)
  · exact (claim_C4_amended spawnExit1 (chars "VBoxManage") (chars "node01")).2
      (1, [], []) (1, [], []) (by decide) (by decide) (by decide)

/-- C5 as stated is false: when the startvm command starts and exits with
a nonzero status, the PowerOn handler does not return a busy code -- it
falls off the end of its body, returning Python None, which the IPMI
engine maps to success 0x00. -/
theorem claim_C5_counterexample :
    (power_on_h spawnExit1 (chars "VBoxManage") (chars "node01")).1 =
      .ok none ∧
    completionOf none = 0x00 := by
  exact ⟨by decide, rfl⟩

/-- C5 amended: on any invocation in which the startvm command starts
(whatever its exit status, in particular nonzero), the PowerOn handler
returns None, mapped to success 0x00; and it returns the non-success
code 0xd5 (command not supported in present state, not the busy code)
exactly when the invocation raises. -/
theorem claim_C5_amended (spawn : Spawn) (path domain : List Char) :
    (∀ r tr, run_vboxmanage_t spawn path (startOpts domain) = (.ok r, tr) →
      power_on_h spawn path domain = (.ok none, tr)) ∧
    (∀ e tr, run_vboxmanage_t spawn path (startOpts domain) = (.error e, tr) →
      power_on_h spawn path domain = (.ok (some 0xd5), tr)) := by
  constructor
  · intro r tr h
    simp [power_on_h, power_on_body, h, pyCatch]
  · intro e tr h
    simp [power_on_h, power_on_body, h, pyCatch]

theorem claim_C5_amended_witness :
    power_on_h spawnExit1 (chars "VBoxManage") (chars "node01") =
      (.ok none,
        [[chars "VBoxManage", chars "startvm", chars "node01",
          chars "--type", chars "headless"]]) :=
  (claim_C5_amended spawnExit1 (chars "VBoxManage") (chars "node01")).1
    (1, [], [])
    [[chars "VBoxManage", chars "startvm", chars "node01",
      chars "--type", chars "headless"]]
    (by decide)

/-- C6: the process runner returns a nonzero exit status together with
the captured stdout and stderr as data, without raising; and a child that
fails to start surfaces as a raised, distinguishable error, not as an
exit status.  Both runner variants (`run_vboxmanage` of vboxvbmc.py and
`run_command` of vbmc.py) behave this way. -/
theorem claim_C6 (spawn : Spawn) (path opts cmd : List Char)
    (toks ctoks : List (List Char)) (p q : ProcResult) (e f : PyErr) :
    (shlexSplit opts = .ok toks → spawn (path :: toks) = .ok p → p.status ≠ 0 →
      run_vboxmanage spawn path opts = .ok (p.status, p.out, p.err)) ∧
    (shlexSplit opts = .ok toks → spawn (path :: toks) = .error e →
      run_vboxmanage spawn path opts = .error e) ∧
    (shlexSplit cmd = .ok ctoks → spawn ctoks = .ok q → q.status ≠ 0 →
      run_command spawn cmd = .ok (q.status, q.out, q.err)) ∧
    (shlexSplit cmd = .ok ctoks → spawn ctoks = .error f →
      run_command spawn cmd = .error f) := by
  refine ⟨fun h1 h2 _ => ?_, fun h1 h2 => ?_, fun h1 h2 _ => ?_, fun h1 h2 => ?_⟩ <;>
    simp [run_vboxmanage, run_command, h1, h2]

theorem claim_C6_witness :
    run_vboxmanage spawnExit1 (chars "VBoxManage") (chars "list vms") =
      .ok (1, [], []) ∧
    run_vboxmanage spawnFailFNF (chars "VBoxManage") (chars "list vms") =
      .error .fileNotFound ∧
    run_command spawnExit1 (chars "VBoxManage list vms") = .ok (1, [], []) ∧
    run_command spawnFailFNF (chars "VBoxManage list vms") =
      .error .fileNotFound := by
  refine ⟨?_, ?_, ?_, ?_⟩
  · exact (claim_C6 spawnExit1 (chars "VBoxManage") (chars "list vms")
      (chars "VBoxManage list vms") [chars "list", chars "vms"]
      [chars "VBoxManage", chars "list", chars "vms"]
      ⟨1, [], []⟩ ⟨1, [], []⟩ .fileNotFound .fileNotFound).1
      (by decide) (by decide) (by decide)
  · exact (claim_C6 spawnFailFNF (chars "VBoxManage") (chars "list vms")
      (chars "VBoxManage list vms") [chars "list", chars "vms"]
      [chars "VBoxManage", chars "list", chars "vms"]
      ⟨1, [], []⟩ ⟨1, [], []⟩ .fileNotFound .fileNotFound).2.1
      (by decide) (by decide)
  · exact (claim_C6 spawnExit1 (chars "VBoxManage") (chars "list vms")
      (chars "VBoxManage list vms") [chars "list", chars "vms"]
      [chars "VBoxManage", chars "list", chars "vms"]
      ⟨1, [], []⟩ ⟨1, [], []⟩ .fileNotFound .fileNotFound).2.2.1
      (by decide) (by decide) (by decide)
  · exact (claim_C6 spawnFailFNF (chars "VBoxManage") (chars "list vms")
      (chars "VBoxManage list vms") [chars "list", chars "vms"]
      [chars "VBoxManage", chars "list", chars "vms"]
      ⟨1, [], []⟩ ⟨1, [], []⟩ .fileNotFound .fileNotFound).2.2.2
      (by decide) (by decide)

/-- C7: under every spawn oracle behavior (success, nonzero exit, launch
failure, lexing failure, missing inventory key), none of the six
handlers lets an exception escape the adapter boundary: each returns a
value (a numeric state or completion value), never a raised error. -/
theorem claim_C7 (spawn : Spawn) (path domain : List Char) :
    (∃ v, (get_power_state_h spawn path domain).1 = Except.ok v) ∧
    (∃ v, (power_on_h spawn path domain).1 = Except.ok v) ∧
    (∃ v, (power_off_h spawn path domain).1 = Except.ok v) ∧
    (∃ v, (power_cycle_h spawn path domain).1 = Except.ok v) ∧
    (∃ v, (power_reset_h spawn path domain).1 = Except.ok v) ∧
    (∃ v, (power_shutdown_h spawn path domain).1 = Except.ok v) :=
  ⟨pyCatch_isOk _ _, pyCatch_isOk _ _, pyCatch_isOk _ _,
    pyCatch_isOk _ _, pyCatch_isOk _ _, pyCatch_isOk _ _⟩

/-- C8 as stated is false: the runner receives a single option string and
lexes it with `shlex.split`; a VM name containing a space is split into
two argv tokens, so the name "my vm" is not passed as one token in the
controlvm invocation. -/
theorem claim_C8_counterexample :
    (power_off_h spawnOkZero (chars "VBoxManage") (chars "my vm")).2 =
      [[chars "VBoxManage", chars "controlvm", chars "my", chars "vm",
        chars "poweroff"]] ∧
    chars "my vm" ∉
      [chars "VBoxManage", chars "controlvm", chars "my", chars "vm",
        chars "poweroff"] := by
  exact ⟨by decide, by decide⟩

/-- C8 amended: the runner receives a single string and applies
shell-style lexing (`shlex.split`) to it before spawning the child
without a shell; a name containing whitespace, quotes or backslashes is
therefore not passed as one token.  Only for a nonempty VM name made of
characters with no lexical role in shlex do the controlvm/startvm
invocations pass the name to the child as exactly one argv token. -/
theorem claim_C8_amended (spawn : Spawn) (path domain : List Char)
    (hplain : ∀ c ∈ domain, plainChar c = true) (hne : domain ≠ []) :
    (power_off_h spawn path domain).2 =
      [[path, chars "controlvm", domain, chars "poweroff"]] ∧
    (power_on_h spawn path domain).2 =
      [[path, chars "startvm", domain, chars "--type", chars "headless"]] := by
  constructor
  · rw [power_off_trace]
    simp [vboxArgvs, shlexSplit_offOpts domain hplain hne]
  · rw [power_on_trace]
    simp [vboxArgvs, shlexSplit_startOpts domain hplain hne]

theorem claim_C8_amended_witness :
    (power_off_h spawnOkZero (chars "VBoxManage") (chars "node01")).2 =
      [[chars "VBoxManage", chars "controlvm", chars "node01",
        chars "poweroff"]] ∧
    (power_on_h spawnOkZero (chars "VBoxManage") (chars "node01")).2 =
      [[chars "VBoxManage", chars "startvm", chars "node01",
        chars "--type", chars "headless"]] :=
  claim_C8_amended spawnOkZero (chars "VBoxManage") (chars "node01")
    (by decide) (by decide)

/-- C9: lines that do not match the listing pattern contribute no
inventory entry and cause no error: the snapshot built from any pair of
listing outputs equals the snapshot built from their matching lines
alone. -/
theorem claim_C9 (outAll outRun : List Char) :
    get_list_vms outAll outRun =
      listVMsFromLines ((splitLines outAll).filter isVMLine)
        ((splitLines outRun).filter isVMLine) := by
  unfold get_list_vms listVMsFromLines
  rw [scanListing_filter, scanListing_filter]

/-- C10: a VM name whose line matches the pattern in the running listing
but is absent from the full listing is still mapped to ON (1) in the
snapshot, and resolving it yields ON rather than the not-found code. -/
theorem claim_C10 (outAll outRun name : List Char)
    (h1 : name ∈ vmNames outRun) (h2 : name ∉ vmNames outAll) :
    get_list_vms outAll outRun name = some POWERON ∧
    get_power_state outAll outRun name = POWERON ∧
    get_power_state outAll outRun name ≠ 0xd5 := by
  have h := get_list_vms_on outAll outRun name h1
  have hg : get_power_state outAll outRun name = POWERON := by
    simp [get_power_state, h]
  exact ⟨h, hg, by rw [hg]; decide⟩

theorem claim_C10_witness :
    get_list_vms (chars "") (chars "\x22vmA\x22 \x7buuid\x7d") (chars "vmA") =
      some POWERON ∧
    get_power_state (chars "") (chars "\x22vmA\x22 \x7buuid\x7d") (chars "vmA") =
      POWERON ∧
    get_power_state (chars "") (chars "\x22vmA\x22 \x7buuid\x7d") (chars "vmA") ≠
      0xd5 :=
  claim_C10 (chars "") (chars "\x22vmA\x22 \x7buuid\x7d") (chars "vmA")
    (by decide) (by decide)

end VBmc
